import Mathlib

/-!
Shallow embedding of the P2PCF protocol test client in `src/renderer.ts`
(handshake state machine, stream session tracking, request building and the
message-decode boundary of the `msg` handler).

Modelling conventions, stated once:

* The module-level mutable variables (`p2pcf`, `currentPeer`, `currentPromptId`,
  `currentBuffer`, `currentReasoningBuffer`, `isVersionNegotiated`,
  `isCompatible`, `currentModelInfo`) become the fields of `ClientState`.
  `p2pcf` and `currentPeer` are only ever tested for truthiness (and
  `currentPeer === peer` in the `peerclose` handler), so they are modelled by
  a `Bool` and an `Option String` carrying the peer identity.
* JavaScript numbers, as produced by `Number(...)`, are modelled by `JSNumber`:
  `nan`, the two infinities, or a finite value carried as a rational.  The
  properties proved here only inspect the sign/finiteness classification, for
  which this embedding is faithful.
* Loosely-typed fields of incoming JSON objects are modelled by `JField`
  (absent / null / string / boolean / number) together with JavaScript
  truthiness, strict equality (`===`, with `NaN !== NaN`) and template-literal
  display.  Objects and arrays appearing as field values behave, on every code
  path modelled here, like any other truthy non-string value.
* DOM writes (`appendLog`, `setStatus`, `setResult`, `setReasoning`, the
  model-status element), console logging and transport sends become an explicit
  `List Effect` returned next to the new state.  `p2pcf.send` can throw; every
  call site wraps it in `try`/`catch`, so each operation that sends takes a
  `Bool` telling whether the send succeeds.
* `JSON.parse` is a platform builtin; it is passed to `decode` as a function
  `String → Option JDoc`, where `JDoc` records exactly what the handler
  inspects about a parsed value: whether it is falsy, whether its field `t` is
  a string, and the message view used afterwards.  A byte payload
  (`ArrayBuffer` or a byte-array view) is represented by the text that
  `TextDecoder` yields for it; `TextDecoder.decode` is total.
-/

/-- A JavaScript number as produced by `Number(...)`: `NaN`, `±Infinity`, or a
finite value (carried as a rational). -/
inductive JSNumber where
  | nan
  | posInf
  | negInf
  | finite (q : ℚ)
deriving DecidableEq, Repr

/-- JavaScript truthiness of a number: `NaN` and `0` are falsy. -/
def JSNumber.truthy : JSNumber → Bool
  | .nan => false
  | .posInf => true
  | .negInf => true
  | .finite q => decide (q ≠ 0)

/-- The JavaScript comparison `n > 0` (false for `NaN`, true for `Infinity`). -/
def JSNumber.gtZero : JSNumber → Bool
  | .nan => false
  | .posInf => true
  | .negInf => false
  | .finite q => decide (0 < q)

/-- `Number.isFinite`. -/
def JSNumber.isFinite : JSNumber → Bool
  | .finite _ => true
  | _ => false

/-- Strict equality `===` on numbers: `NaN === NaN` is false. -/
def JSNumber.strictEq : JSNumber → JSNumber → Bool
  | .nan, _ => false
  | _, .nan => false
  | .posInf, .posInf => true
  | .negInf, .negInf => true
  | .finite x, .finite y => decide (x = y)
  | _, _ => false

/-- Template-literal display of a number. -/
def JSNumber.display : JSNumber → String
  | .nan => "NaN"
  | .posInf => "Infinity"
  | .negInf => "-Infinity"
  | .finite q => toString q

/-- A loosely-typed field of an incoming JSON object, as the handler accesses
it: absent (`undefined`), `null`, a string, a boolean or a number. -/
inductive JField where
  | absent
  | null
  | str (s : String)
  | bool (b : Bool)
  | num (n : JSNumber)
deriving DecidableEq, Repr

/-- JavaScript truthiness of a field value (`undefined`, `null`, `""`, `false`,
`0` and `NaN` are falsy). -/
def JField.truthy : JField → Bool
  | .absent => false
  | .null => false
  | .str s => decide (s ≠ "")
  | .bool b => b
  | .num n => n.truthy

/-- `typeof v === 'string'`. -/
def JField.isString : JField → Bool
  | .str _ => true
  | _ => false

/-- Strict equality `===` between two field values. -/
def JField.strictEq : JField → JField → Bool
  | .absent, .absent => true
  | .null, .null => true
  | .str a, .str b => a == b
  | .bool a, .bool b => a == b
  | .num a, .num b => a.strictEq b
  | _, _ => false

/-- Template-literal display `${v}` of a field value. -/
def JField.display : JField → String
  | .absent => "undefined"
  | .null => "null"
  | .str s => s
  | .bool b => if b then "true" else "false"
  | .num n => n.display

/-- `${v ?? d}`: nullish coalescing, then display. -/
def JField.coalesceDisplay (f : JField) (d : String) : String :=
  match f with
  | .absent => d
  | .null => d
  | x => x.display

/-- `${v || d}`: truthiness-based fallback, then display. -/
def JField.orDisplay (f : JField) (d : String) : String :=
  if f.truthy then f.display else d

/-- The incoming message as `handleIncoming` sees it: the string discriminator
`t` (already validated by the decode boundary) and the loosely-typed fields the
handler may access. -/
structure RawMsg where
  t : String
  id : JField
  tok : JField
  message : JField
  compatible : JField
  protocolVersion : JField
  reason : JField
  displayName : JField
  installed : JField
  impl : JField
  version : JField
deriving DecidableEq, Repr

/-- A message with discriminator `t` and every other field absent. -/
def emptyMsg (t : String) : RawMsg :=
  ⟨t, .absent, .absent, .absent, .absent, .absent, .absent, .absent, .absent,
   .absent, .absent⟩

def helloMsg (impl version : JField) : RawMsg :=
  { emptyMsg "hello" with impl := impl, version := version }

def versionAckMsg (compatible protocolVersion reason : JField) : RawMsg :=
  { emptyMsg "version_ack" with
      compatible := compatible, protocolVersion := protocolVersion,
      reason := reason }

def modelInfoMsg (id displayName installed : JField) : RawMsg :=
  { emptyMsg "model_info" with
      id := id, displayName := displayName, installed := installed }

def startMsg (id : JField) : RawMsg :=
  { emptyMsg "start" with id := id }

def tokenMsg (id tok : JField) : RawMsg :=
  { emptyMsg "token" with id := id, tok := tok }

def reasoningTokenMsg (id tok : JField) : RawMsg :=
  { emptyMsg "reasoning_token" with id := id, tok := tok }

def endMsg (id : JField) : RawMsg :=
  { emptyMsg "end" with id := id }

def errorMsg (id message : JField) : RawMsg :=
  { emptyMsg "error" with id := id, message := message }

/-- The cached `model_info` record; the code stores the raw field values
without validation. -/
structure StoredModelInfo where
  id : JField
  displayName : JField
  installed : JField
deriving DecidableEq, Repr

/-- The module-level mutable state of the renderer. -/
structure ClientState where
  hasP2pcf : Bool
  currentPeer : Option String
  currentPromptId : JField
  currentBuffer : String
  currentReasoningBuffer : String
  isVersionNegotiated : Bool
  isCompatible : Bool
  currentModelInfo : Option StoredModelInfo
deriving DecidableEq, Repr

/-- State at module load: no client, no peer, `currentPromptId = null`. -/
def initialState : ClientState :=
  ⟨false, none, JField.null, "", "", false, false, none⟩

inductive Role where
  | system
  | user
  | assistant
deriving DecidableEq, Repr

structure ChatMessage where
  role : Role
  content : String
deriving DecidableEq, Repr

/-- The `OutgoingMessage` union of the renderer. -/
inductive OutgoingMsg where
  | hello (clientId impl version : String)
  | versionNegotiate (protocolVersion minCompatibleVersion : String)
  | prompt (id : String) (messages : List ChatMessage)
      (max_tokens : Option JSNumber)
  | getModel
deriving DecidableEq, Repr

/-- Observable side effects of one handler run, in program order. -/
inductive Effect where
  | logLine (s : String)
  | statusLine (s : String) (isError : Bool)
  | resultText (s : String)
  | reasoningText (s : String)
  | modelStatusText (s : String)
  | sendMsg (m : OutgoingMsg)
  | consoleError (s : String)
deriving DecidableEq, Repr

def isSendEffect : Effect → Bool
  | Effect.sendMsg _ => true
  | _ => false

/-- `handleIncoming` (renderer.ts lines 400-522).  `sendOk` tells whether the
`p2pcf.send` inside the `version_ack` branch would succeed. -/
def handleIncoming (sendOk : Bool) (s : ClientState) (m : RawMsg) :
    ClientState × List Effect :=
  if m.t = "hello" then
    (s, [Effect.logLine ("Received hello: impl=" ++ m.impl.coalesceDisplay "" ++
          " version=" ++ m.version.coalesceDisplay "")])
  else if m.t = "version_ack" then
    let s1 := { s with isVersionNegotiated := true,
                       isCompatible := m.compatible.truthy }
    if m.compatible.truthy then
      let base := [Effect.logLine ("Version negotiation successful: server protocol=" ++
                     m.protocolVersion.display),
                   Effect.statusLine "Connected and ready. Protocol version compatible." false]
      if s1.hasP2pcf && s1.currentPeer.isSome then
        if sendOk then
          (s1, base ++ [Effect.sendMsg OutgoingMsg.getModel,
                        Effect.logLine "Requested model info from server"])
        else
          (s1, base ++ [Effect.consoleError "Failed to request model info"])
      else (s1, base)
    else
      (s1, [Effect.logLine ("Version negotiation failed: " ++
              m.reason.orDisplay "incompatible versions"),
            Effect.statusLine ("Protocol version incompatible: " ++
              m.reason.orDisplay "server version mismatch") true])
  else if m.t = "model_info" then
    ({ s with currentModelInfo := some ⟨m.id, m.displayName, m.installed⟩ },
     [Effect.logLine ("Received model info: " ++ m.displayName.display ++
        " (id=" ++ m.id.display ++ ", installed=" ++ m.installed.display ++ ")"),
      Effect.modelStatusText ("Model: " ++ m.displayName.display ++ " (" ++
        (if m.installed.truthy then "installed" else "not installed") ++ ")")])
  else if m.t = "start" then
    if !m.id.truthy then
      (s, [Effect.logLine "Received start without id (ignored)"])
    else
      ({ s with currentPromptId := m.id, currentBuffer := "",
                currentReasoningBuffer := "" },
       [Effect.logLine ("Received start for id=" ++ m.id.display),
        Effect.resultText "", Effect.reasoningText ""])
  else if m.t = "token" then
    if !m.id.truthy || !(m.id.strictEq s.currentPromptId) then
      (s, [Effect.logLine ("Received token for unknown/mismatched id=" ++
             m.id.display ++ " (current=" ++ s.currentPromptId.display ++ ")")])
    else
      match m.tok with
      | JField.str tk =>
          ({ s with currentBuffer := s.currentBuffer ++ tk },
           [Effect.resultText (s.currentBuffer ++ tk)])
      | _ => (s, [])
  else if m.t = "reasoning_token" then
    if !m.id.truthy || !(m.id.strictEq s.currentPromptId) then
      (s, [Effect.logLine ("Received reasoning_token for unknown/mismatched id=" ++
             m.id.display ++ " (current=" ++ s.currentPromptId.display ++ ")")])
    else
      match m.tok with
      | JField.str tk =>
          ({ s with currentReasoningBuffer := s.currentReasoningBuffer ++ tk },
           [Effect.reasoningText (s.currentReasoningBuffer ++ tk)])
      | _ => (s, [])
  else if m.t = "end" then
    if !m.id.truthy || !(m.id.strictEq s.currentPromptId) then
      (s, [Effect.logLine ("Received end for unknown/mismatched id=" ++
             m.id.display ++ " (current=" ++ s.currentPromptId.display ++ ")")])
    else
      ({ s with currentPromptId := JField.null },
       [Effect.logLine ("Received end for id=" ++ m.id.display),
        Effect.statusLine "Completion finished successfully." false])
  else if m.t = "error" then
    let logEff :=
      if !m.id.truthy || (s.currentPromptId.truthy && !(m.id.strictEq s.currentPromptId)) then
        Effect.logLine ("Received error for id=" ++ m.id.display ++
          " (current=" ++ s.currentPromptId.orDisplay "n/a" ++ ")")
      else
        Effect.logLine ("Received error for id=" ++ m.id.display ++ ": " ++
          m.message.orDisplay "Unknown error")
    ({ s with currentPromptId := JField.null },
     [logEff,
      Effect.statusLine ("Error from server: " ++
        m.message.orDisplay "Unknown error") true])
  else
    (s, [Effect.logLine ("Ignoring unknown message type \"" ++ m.t ++ "\"")])

/-- Fold `handleIncoming` over a list of messages, keeping only the state. -/
def processAll (sendOk : Bool) (s : ClientState) (ms : List RawMsg) :
    ClientState :=
  ms.foldl (fun st m => (handleIncoming sendOk st m).1) s

/-- The `peerconnect` handler (lines 301-337): records the peer, resets the
negotiation flags, and fire-and-forget sends `hello` then `version_negotiate`
inside one `try`/`catch` (`sendOk1`/`sendOk2` tell whether each send
succeeds). -/
def onPeerConnect (s : ClientState) (peerId : String) (sendOk1 sendOk2 : Bool) :
    ClientState × List Effect :=
  let s1 := { s with currentPeer := some peerId, isVersionNegotiated := false,
                     isCompatible := false }
  let base := [Effect.logLine ("Peer connected: id=" ++ peerId),
               Effect.statusLine "Connected to peer. Negotiating protocol version..." false]
  if sendOk1 then
    if sendOk2 then
      (s1, base ++
        [Effect.sendMsg (OutgoingMsg.hello "test-client" "mydeviceai-desktop-test" "1.0.0"),
         Effect.logLine "Sent hello message to peer",
         Effect.sendMsg (OutgoingMsg.versionNegotiate "1.0.0" "1.0.0"),
         Effect.logLine "Sent version_negotiate: protocol=1.0.0, minCompat=1.0.0"])
    else
      (s1, base ++
        [Effect.sendMsg (OutgoingMsg.hello "test-client" "mydeviceai-desktop-test" "1.0.0"),
         Effect.logLine "Sent hello message to peer",
         Effect.consoleError "Failed to send hello/version_negotiate",
         Effect.statusLine "Failed to negotiate protocol version" true])
  else
    (s1, base ++
      [Effect.consoleError "Failed to send hello/version_negotiate",
       Effect.statusLine "Failed to negotiate protocol version" true])

/-- The `peerclose` handler (lines 339-350): only when the closing peer is the
current one, it clears `currentPeer`, the two negotiation flags and
`currentModelInfo` - and nothing else. -/
def onPeerClose (s : ClientState) (peerId : String) :
    ClientState × List Effect :=
  let effs := [Effect.logLine ("Peer disconnected: id=" ++ peerId),
               Effect.statusLine "Peer disconnected. You may reconnect or wait for peer." false]
  if s.currentPeer = some peerId then
    ({ s with currentPeer := none, isVersionNegotiated := false,
              isCompatible := false, currentModelInfo := none }, effs)
  else (s, effs)

/-- The `max_tokens` computation in `sendPrompt` (lines 560 and 582-584):
`Number(maxTokensEl.value) || undefined`, then
`if (maxTokens && maxTokens > 0) msg.max_tokens = maxTokens`. -/
def computeMaxTokens (n : JSNumber) : Option JSNumber :=
  let m : Option JSNumber := if n.truthy then some n else none
  match m with
  | some v => if v.truthy && v.gtZero then some v else none
  | none => none

/-- `sendPrompt` (lines 524-602).  `systemPromptRaw`/`userPromptRaw` are the
textarea values, `maxTokensParsed` is `Number(maxTokensEl.value)`, and
`dateSuffix` is `Date.now().toString(36)`; `sendOk` tells whether
`p2pcf.send` succeeds.  The required DOM elements are assumed present. -/
def sendPrompt (s : ClientState) (systemPromptRaw userPromptRaw : String)
    (maxTokensParsed : JSNumber) (dateSuffix : String) (sendOk : Bool) :
    ClientState × List Effect :=
  if ¬ s.hasP2pcf ∨ s.currentPeer = none then
    (s, [Effect.logLine "Cannot send: no connected peer",
         Effect.statusLine "Cannot send prompt: not connected to any peer." true])
  else if ¬ s.isVersionNegotiated then
    (s, [Effect.logLine "Cannot send: version not negotiated yet",
         Effect.statusLine "Waiting for protocol version negotiation..." true])
  else if ¬ s.isCompatible then
    (s, [Effect.logLine "Cannot send: protocol version incompatible",
         Effect.statusLine "Cannot send: protocol version incompatible with server" true])
  else
    let systemPrompt := systemPromptRaw.trim
    let userPrompt := userPromptRaw.trim
    if userPrompt = "" then
      (s, [Effect.statusLine "Enter a user message before sending." true])
    else
      let id := "test-" ++ dateSuffix
      let messages : List ChatMessage :=
        (if systemPrompt ≠ "" then [⟨Role.system, systemPrompt⟩] else []) ++
          [⟨Role.user, userPrompt⟩]
      let maxTok := computeMaxTokens maxTokensParsed
      if sendOk then
        ({ s with currentPromptId := JField.str id, currentBuffer := "",
                  currentReasoningBuffer := "" },
         [Effect.sendMsg (OutgoingMsg.prompt id messages maxTok),
          Effect.logLine ("Sent prompt id=" ++ id ++ ", messages=" ++
            toString messages.length ++ ", max_tokens=" ++
            (match maxTok with
             | some n => n.display
             | none => "default")),
          Effect.statusLine "Prompt sent. Waiting for streamed tokens..." false,
          Effect.resultText "", Effect.reasoningText ""])
      else
        (s, [Effect.consoleError "Failed to send prompt over P2PCF",
             Effect.statusLine "Failed to send prompt over P2PCF." true])

/-- `getModelInfo` (lines 604-626): note the single combined negotiation check
`!isVersionNegotiated || !isCompatible` with one shared log/status text. -/
def getModelInfo (s : ClientState) (sendOk : Bool) :
    ClientState × List Effect :=
  if ¬ s.hasP2pcf ∨ s.currentPeer = none then
    (s, [Effect.logLine "Cannot get model info: no connected peer",
         Effect.statusLine "Cannot get model info: not connected to any peer." true])
  else if ¬ s.isVersionNegotiated ∨ ¬ s.isCompatible then
    (s, [Effect.logLine "Cannot get model info: version not negotiated or incompatible",
         Effect.statusLine "Waiting for protocol version negotiation..." true])
  else if sendOk then
    (s, [Effect.sendMsg OutgoingMsg.getModel,
         Effect.logLine "Requested model info from server",
         Effect.statusLine "Model info request sent..." false])
  else
    (s, [Effect.consoleError "Failed to send get_model",
         Effect.statusLine "Failed to send model info request" true])

/-- A send attempt that was rejected locally: the state is unchanged and no
message goes out on the transport. -/
def rejectedLocally (s : ClientState) (out : ClientState × List Effect) : Prop :=
  out.1 = s ∧ out.2.all (fun e => !isSendEffect e) = true

/-- A transport payload as discriminated by the `msg` handler (lines 352-391):
a string, a byte sequence (represented by its `TextDecoder` text), or any
other shape. -/
inductive Payload where
  | text (s : String)
  | bytes (decoded : String)
  | other
deriving DecidableEq, Repr

/-- What the handler inspects about a successfully parsed JSON value: a falsy
value, a truthy value whose field `t` is not a string, or a value whose string
`t` yields the message view `m`. -/
inductive JDoc where
  | falsy
  | noTag
  | tagged (m : RawMsg)
deriving DecidableEq, Repr

/-- Classification of one raw payload by the decode boundary. -/
inductive DecodeOutcome where
  | unsupportedPayload
  | malformed
  | missingTag
  | accepted (m : RawMsg)
deriving DecidableEq, Repr

/-- The `asString` computation: strings pass through, byte payloads are
UTF-8 decoded, anything else yields `null`. -/
def payloadToText : Payload → Option String
  | .text s => some s
  | .bytes d => some d
  | .other => none

/-- The decode boundary of the `msg` handler, with `JSON.parse` passed in as
`parse`.  Note `if (!asString)`: both `null` (non-text payload) and the empty
string take the unsupported-payload exit before parsing. -/
def decode (parse : String → Option JDoc) (p : Payload) : DecodeOutcome :=
  match payloadToText p with
  | none => DecodeOutcome.unsupportedPayload
  | some s =>
    if s = "" then DecodeOutcome.unsupportedPayload
    else
      match parse s with
      | none => DecodeOutcome.malformed
      | some JDoc.falsy => DecodeOutcome.missingTag
      | some JDoc.noTag => DecodeOutcome.missingTag
      | some (JDoc.tagged m) => DecodeOutcome.accepted m

/-- The discriminator values `handleIncoming` recognizes. -/
def knownTags : List String :=
  ["hello", "version_ack", "model_info", "start", "token", "reasoning_token",
   "end", "error"]

/-- A parse function claiming nothing parses; stands in for `JSON.parse` on
inputs that are not valid JSON (such as the empty string). -/
def noParse : String → Option JDoc := fun _ => none

/-- Count of automatic `get_model` sends among a list of effects. -/
def countGetModel (effs : List Effect) : Nat :=
  effs.countP (fun e => decide (e = Effect.sendMsg OutgoingMsg.getModel))

/-- Connected, negotiated, compatible, idle stream. -/
def readyState : ClientState :=
  ⟨true, some "peer1", JField.null, "", "", true, true, none⟩

/-- Connected, still negotiating (no `version_ack` yet). -/
def negotiatingState : ClientState :=
  ⟨true, some "peer1", JField.null, "", "", false, false, none⟩

/-- Connected, negotiated incompatible. -/
def incompatibleState : ClientState :=
  ⟨true, some "peer1", JField.null, "", "", true, false, none⟩

/-- Mid-stream state on correlation id "A" with buffered content. -/
def streamingAState : ClientState :=
  ⟨true, some "peer1", JField.str "A", "buf", "rsn", true, true, none⟩

/-- Mid-stream state on correlation id "x" with buffered content and a cached
model record. -/
def streamingXState : ClientState :=
  ⟨true, some "peer1", JField.str "x", "hello", "think", true, true,
   some ⟨JField.str "m1", JField.str "Test Model", JField.bool true⟩⟩

/-- Idle stream waiting on correlation id "x1". -/
def activeX1State : ClientState :=
  ⟨true, some "peer1", JField.str "x1", "", "", true, true, none⟩

def compatAck : RawMsg :=
  versionAckMsg (JField.bool true) (JField.str "1.0.0") JField.absent

def incompatAck : RawMsg :=
  versionAckMsg (JField.bool false) (JField.str "1.0.0") JField.absent

/-! ## Helper lemmas -/

/-- A matching `token` message with a string `tok` appends to the visible
buffer and changes nothing else. -/
theorem token_append_step (sendOk : Bool) (s : ClientState) (a tk : String)
    (ha : a ≠ "") (hact : s.currentPromptId = JField.str a) :
    handleIncoming sendOk s (tokenMsg (JField.str a) (JField.str tk)) =
      ({ s with currentBuffer := s.currentBuffer ++ tk },
       [Effect.resultText (s.currentBuffer ++ tk)]) := by
  simp [handleIncoming, tokenMsg, emptyMsg, JField.truthy, JField.strictEq, ha, hact]

/-- `String.join` peels off its head. -/
theorem join_string_eq (hd : String) (tl : List String) :
    hd ++ String.join tl = String.join (hd :: tl) := by
  apply String.ext
  simp

/-- Folding a run of matching `token` messages appends the joined chunks to
the visible buffer. -/
theorem tokens_fold (sendOk : Bool) (s : ClientState) (a : String)
    (toks : List String)
    (ha : a ≠ "") (hact : s.currentPromptId = JField.str a) :
    processAll sendOk s (toks.map (fun tk => tokenMsg (JField.str a) (JField.str tk))) =
      { s with currentBuffer := s.currentBuffer ++ String.join toks } := by
  induction toks generalizing s with
  | nil =>
    have h : String.join ([] : List String) = "" := by apply String.ext; simp
    simp [processAll, h]
  | cons hd tl ih =>
    simp only [List.map_cons, processAll, List.foldl_cons]
    rw [token_append_step sendOk s a hd ha hact]
    have h2 := ih { s with currentBuffer := s.currentBuffer ++ hd } hact
    simp only [processAll] at h2
    rw [h2]
    simp only [ClientState.mk.injEq, and_true, true_and]
    rw [String.append_assoc, join_string_eq]

/-- A `start` message with a non-empty string id overwrites the active id and
clears both buffers, regardless of the prior state. -/
theorem start_step (sendOk : Bool) (s : ClientState) (b : String) (hb : b ≠ "") :
    handleIncoming sendOk s (startMsg (JField.str b)) =
      ({ s with currentPromptId := JField.str b, currentBuffer := "",
                currentReasoningBuffer := "" },
       [Effect.logLine ("Received start for id=" ++ b),
        Effect.resultText "", Effect.reasoningText ""]) := by
  simp [handleIncoming, startMsg, emptyMsg, JField.truthy, JField.display, hb]

/-- Concrete evaluation of `String.trim` (defined by well-founded recursion,
so the kernel cannot reduce it): "hi" has no surrounding whitespace. -/
theorem trim_hi : "hi".trim = "hi" := by
  have h1 : Substring.takeWhileAux "hi" ⟨2⟩ Char.isWhitespace ⟨0⟩ = ⟨0⟩ := by
    unfold Substring.takeWhileAux; decide
  have h2 : Substring.takeRightWhileAux "hi" ⟨0⟩ Char.isWhitespace ⟨2⟩ = ⟨2⟩ := by
    unfold Substring.takeRightWhileAux; decide
  have hsub : "hi".toSubstring = ⟨"hi", ⟨0⟩, ⟨2⟩⟩ := rfl
  show ("hi".toSubstring.trim).toString = "hi"
  rw [hsub]
  simp only [Substring.trim]
  rw [h1, h2]
  decide

/-- Concrete evaluation of `String.trim`: "sys" has no surrounding
whitespace. -/
theorem trim_sys : "sys".trim = "sys" := by
  have h1 : Substring.takeWhileAux "sys" ⟨3⟩ Char.isWhitespace ⟨0⟩ = ⟨0⟩ := by
    unfold Substring.takeWhileAux; decide
  have h2 : Substring.takeRightWhileAux "sys" ⟨0⟩ Char.isWhitespace ⟨3⟩ = ⟨3⟩ := by
    unfold Substring.takeRightWhileAux; decide
  have hsub : "sys".toSubstring = ⟨"sys", ⟨0⟩, ⟨3⟩⟩ := rfl
  show ("sys".toSubstring.trim).toString = "sys"
  rw [hsub]
  simp only [Substring.trim]
  rw [h1, h2]
  decide

/-- Locally generated prompt ids are never the empty string. -/
theorem test_id_ne_empty (suff : String) : ("test-" ++ suff) ≠ "" := by
  intro h
  have h2 := congrArg String.length h
  rw [String.length_append] at h2
  have h5 : "test-".length = 5 := by decide
  have h0 : ("" : String).length = 0 := by decide
  omega

/-- The success path of `sendPrompt` as one equation: with a connected peer,
negotiated compatibility, a non-blank user message and a succeeding transport
send, the whole output is determined. -/
theorem sendPrompt_success (s : ClientState) (p sys usr suff : String)
    (n : JSNumber)
    (hp : s.hasP2pcf = true) (hpeer : s.currentPeer = some p)
    (hneg : s.isVersionNegotiated = true) (hcomp : s.isCompatible = true)
    (husr : usr.trim ≠ "") :
    sendPrompt s sys usr n suff true =
      ({ s with currentPromptId := JField.str ("test-" ++ suff),
                currentBuffer := "", currentReasoningBuffer := "" },
       [Effect.sendMsg (OutgoingMsg.prompt ("test-" ++ suff)
          ((if sys.trim ≠ "" then [(⟨Role.system, sys.trim⟩ : ChatMessage)] else []) ++
            [(⟨Role.user, usr.trim⟩ : ChatMessage)]) (computeMaxTokens n)),
        Effect.logLine ("Sent prompt id=" ++ ("test-" ++ suff) ++ ", messages=" ++
          toString ((if sys.trim ≠ "" then [(⟨Role.system, sys.trim⟩ : ChatMessage)] else []) ++
            [(⟨Role.user, usr.trim⟩ : ChatMessage)]).length ++ ", max_tokens=" ++
          (match computeMaxTokens n with
           | some x => x.display
           | none => "default")),
        Effect.statusLine "Prompt sent. Waiting for streamed tokens..." false,
        Effect.resultText "", Effect.reasoningText ""]) := by
  simp [sendPrompt, hp, hpeer, hneg, hcomp, husr]

/-! ## Claim theorems -/

/-- C1 counterexample: the claim is false as stated.  With the stream active on
id "A", an `error` message for the foreign id "B" does not leave the state
unchanged: the handler clears `currentPromptId` to `null` (so it no longer
equals `str "A"`) and surfaces the error status, instead of only logging. -/
theorem error_mismatch_frame_counterexample :
    (handleIncoming true streamingAState
        (errorMsg (JField.str "B") (JField.str "boom"))).1.currentPromptId = JField.null
    ∧ JField.null ≠ JField.str "A"
    ∧ Effect.statusLine "Error from server: boom" true ∈
        (handleIncoming true streamingAState
          (errorMsg (JField.str "B") (JField.str "boom"))).2 := by
  decide

/-- C1 (amended): for every incoming `error` message whose id is truthy and
differs (under `===`) from a truthy active correlation id, the handler logs the
message as a mismatch and leaves the buffers, negotiation flags and model cache
unchanged, but it still surfaces the error status and unconditionally clears
the active correlation id to `null` - the active stream does not continue. -/
theorem error_mismatch_clears_active (sendOk : Bool) (s : ClientState)
    (idf msgf : JField)
    (hid : idf.truthy = true) (hact : s.currentPromptId.truthy = true)
    (hne : idf.strictEq s.currentPromptId = false) :
    handleIncoming sendOk s (errorMsg idf msgf) =
      ({ s with currentPromptId := JField.null },
       [Effect.logLine ("Received error for id=" ++ idf.display ++
          " (current=" ++ s.currentPromptId.orDisplay "n/a" ++ ")"),
        Effect.statusLine ("Error from server: " ++
          msgf.orDisplay "Unknown error") true]) := by
  simp [handleIncoming, errorMsg, emptyMsg, hid, hact, hne]

/-- C1 witness: the amended theorem applied to a concrete mismatched error. -/
theorem error_mismatch_clears_active_witness :
    (handleIncoming true streamingAState
        (errorMsg (JField.str "B") (JField.str "boom"))).1 =
      { streamingAState with currentPromptId := JField.null } := by
  rw [error_mismatch_clears_active true streamingAState (JField.str "B")
        (JField.str "boom") (by decide) (by decide) (by decide)]

/-- C2 counterexample: the claim is false as stated.  Disconnecting the current
peer while a stream is active leaves the active correlation id and both
buffers exactly as they were - stream state survives the disconnect. -/
theorem peer_disconnect_keeps_stream_counterexample :
    (onPeerClose streamingXState "peer1").1.currentPromptId = JField.str "x"
    ∧ (onPeerClose streamingXState "peer1").1.currentBuffer = "hello"
    ∧ (onPeerClose streamingXState "peer1").1.currentReasoningBuffer = "think"
    ∧ JField.str "x" ≠ JField.null := by
  decide

/-- C2 (amended): processing a disconnect of the current peer resets the peer
reference, both negotiation flags and the cached model info to their initial
values, and changes nothing else: the active correlation id, the visible
buffer and the reasoning buffer all survive the disconnect. -/
theorem peer_disconnect_resets_session (s : ClientState) (p : String)
    (h : s.currentPeer = some p) :
    onPeerClose s p =
      ({ s with currentPeer := none, isVersionNegotiated := false,
                isCompatible := false, currentModelInfo := none },
       [Effect.logLine ("Peer disconnected: id=" ++ p),
        Effect.statusLine "Peer disconnected. You may reconnect or wait for peer." false]) := by
  simp [onPeerClose, h]

/-- C2 witness: the amended theorem applied to the concrete mid-stream state. -/
theorem peer_disconnect_resets_session_witness :
    (onPeerClose streamingXState "peer1").1 =
      { streamingXState with currentPeer := none, isVersionNegotiated := false,
                             isCompatible := false, currentModelInfo := none } := by
  rw [peer_disconnect_resets_session streamingXState "peer1" (by decide)]

/-- C3 counterexample: the claim is false for `get_model`.  In the
`Incompatible` state (negotiated, not compatible) the failure is not an
"incompatible"-specific `ProtocolError`: the code emits the single combined
log line and the status "Waiting for protocol version negotiation...", exactly
the same effects it emits in the `Negotiating` (not-negotiated) state. -/
theorem get_model_incompatible_counterexample :
    (getModelInfo incompatibleState true).2 =
      [Effect.logLine "Cannot get model info: version not negotiated or incompatible",
       Effect.statusLine "Waiting for protocol version negotiation..." true]
    ∧ (getModelInfo incompatibleState true).2 = (getModelInfo negotiatingState true).2 := by
  decide

/-- C3 (amended): with a connected peer, any `prompt` or `get_model` attempt
outside the `Compatible` state is rejected locally (state unchanged, nothing
sent): `prompt` distinguishes the not-negotiated and incompatible reasons,
while `get_model` fails with one combined not-negotiated-or-incompatible
message in both states.  Only `Compatible` permits the sends, and after any
`version_ack` whose `compatible` field is falsy both kinds of send attempt are
rejected, regardless of earlier history. -/
theorem negotiation_gating (s : ClientState) (p sys usr suff : String)
    (n : JSNumber) (sendOk : Bool)
    (hp : s.hasP2pcf = true) (hpeer : s.currentPeer = some p) :
    (s.isVersionNegotiated = false →
        rejectedLocally s (sendPrompt s sys usr n suff sendOk)
      ∧ rejectedLocally s (getModelInfo s sendOk)
      ∧ (sendPrompt s sys usr n suff sendOk).2.head? =
          some (Effect.logLine "Cannot send: version not negotiated yet")
      ∧ (getModelInfo s sendOk).2.head? =
          some (Effect.logLine "Cannot get model info: version not negotiated or incompatible"))
    ∧ (s.isVersionNegotiated = true → s.isCompatible = false →
        rejectedLocally s (sendPrompt s sys usr n suff sendOk)
      ∧ rejectedLocally s (getModelInfo s sendOk)
      ∧ (sendPrompt s sys usr n suff sendOk).2.head? =
          some (Effect.logLine "Cannot send: protocol version incompatible")
      ∧ (getModelInfo s sendOk).2.head? =
          some (Effect.logLine "Cannot get model info: version not negotiated or incompatible"))
    ∧ (s.isVersionNegotiated = true → s.isCompatible = true →
        (getModelInfo s true).2 =
          [Effect.sendMsg OutgoingMsg.getModel,
           Effect.logLine "Requested model info from server",
           Effect.statusLine "Model info request sent..." false])
    ∧ (∀ ack : RawMsg, ack.t = "version_ack" → ack.compatible.truthy = false →
        (handleIncoming sendOk s ack).1.isVersionNegotiated = true
      ∧ (handleIncoming sendOk s ack).1.isCompatible = false
      ∧ rejectedLocally (handleIncoming sendOk s ack).1
          (sendPrompt (handleIncoming sendOk s ack).1 sys usr n suff sendOk)
      ∧ rejectedLocally (handleIncoming sendOk s ack).1
          (getModelInfo (handleIncoming sendOk s ack).1 sendOk)) := by
  refine ⟨?_, ?_, ?_, ?_⟩
  · intro hneg
    refine ⟨?_, ?_, ?_, ?_⟩ <;>
      simp [sendPrompt, getModelInfo, rejectedLocally, isSendEffect, hp, hpeer, hneg]
  · intro hneg hcomp
    refine ⟨?_, ?_, ?_, ?_⟩ <;>
      simp [sendPrompt, getModelInfo, rejectedLocally, isSendEffect, hp, hpeer, hneg, hcomp]
  · intro hneg hcomp
    simp [getModelInfo, hp, hpeer, hneg, hcomp]
  · intro ack ht hc
    have hstate : (handleIncoming sendOk s ack).1 =
        { s with isVersionNegotiated := true, isCompatible := false } := by
      simp [handleIncoming, ht, hc]
    refine ⟨by rw [hstate], by rw [hstate], ?_, ?_⟩ <;>
      rw [hstate] <;>
      simp [sendPrompt, getModelInfo, rejectedLocally, isSendEffect, hp, hpeer]

/-- C3 witness: the gating theorem applied to the concrete negotiating state:
a `prompt` attempt before negotiation is rejected locally. -/
theorem negotiation_gating_witness :
    rejectedLocally negotiatingState
      (sendPrompt negotiatingState "sys" "hi" (JSNumber.finite 5) "abc" true) := by
  exact ((negotiation_gating negotiatingState "peer1" "sys" "hi" "abc"
    (JSNumber.finite 5) true rfl rfl).1 rfl).1

/-- C4 (confirmed): starting from an empty visible buffer with active id `a`
(non-empty, as every id accepted by `start` or generated by `sendPrompt` is),
processing any sequence of `token` messages carrying id `a` and string `tok`
fields yields a visible buffer equal to the left-to-right concatenation of the
`tok` values in arrival order, with the id still active. -/
theorem token_concatenation (sendOk : Bool) (s : ClientState) (a : String)
    (toks : List String)
    (ha : a ≠ "") (hact : s.currentPromptId = JField.str a)
    (hbuf : s.currentBuffer = "") :
    (processAll sendOk s
        (toks.map (fun tk => tokenMsg (JField.str a) (JField.str tk)))).currentBuffer =
      String.join toks
    ∧ (processAll sendOk s
        (toks.map (fun tk => tokenMsg (JField.str a) (JField.str tk)))).currentPromptId =
      JField.str a := by
  have h := tokens_fold sendOk s a toks ha hact
  have hjoin : ("" : String) ++ String.join toks = String.join toks := by
    apply String.ext; simp
  rw [h]
  exact ⟨by simp [hbuf, hjoin], hact⟩

/-- C4 witness: "Hel" then "lo" for the active id "x1" reassemble to "Hello". -/
theorem token_concatenation_witness :
    (processAll true activeX1State
      (["Hel", "lo"].map (fun tk => tokenMsg (JField.str "x1") (JField.str tk)))).currentBuffer =
      "Hello" := by
  rw [(token_concatenation true activeX1State "x1" ["Hel", "lo"]
        (by decide) (by decide) (by decide)).1]
  decide

/-- C5 (confirmed): after `start{id:a}` and a run of `a`-tagged tokens,
processing `start{id:b}` (`a`, `b` non-empty, distinct) makes `b` the active
id and clears both buffers, discarding everything `a` had buffered; any later
`token` or `reasoning_token` tagged `a` then leaves the state unchanged. -/
theorem start_supersedes (sendOk : Bool) (s sA sB : ClientState) (a b : String)
    (toks : List String)
    (ha : a ≠ "") (hb : b ≠ "") (hab : a ≠ b)
    (hA : sA = processAll sendOk s
        (startMsg (JField.str a) :: toks.map (fun tk => tokenMsg (JField.str a) (JField.str tk))))
    (hB : sB = (handleIncoming sendOk sA (startMsg (JField.str b))).1) :
    sA.currentPromptId = JField.str a
    ∧ sA.currentBuffer = String.join toks
    ∧ sB.currentPromptId = JField.str b
    ∧ sB.currentBuffer = "" ∧ sB.currentReasoningBuffer = ""
    ∧ (∀ tk : String,
        (handleIncoming sendOk sB (tokenMsg (JField.str a) (JField.str tk))).1 = sB
      ∧ (handleIncoming sendOk sB (reasoningTokenMsg (JField.str a) (JField.str tk))).1 = sB) := by
  have hstartA : sA = { s with currentPromptId := JField.str a,
                               currentBuffer := String.join toks,
                               currentReasoningBuffer := "" } := by
    rw [hA]
    simp only [processAll, List.foldl_cons]
    rw [start_step sendOk s a ha]
    have h3 := tokens_fold sendOk
      { s with currentPromptId := JField.str a, currentBuffer := "",
               currentReasoningBuffer := "" } a toks ha rfl
    simp only [processAll] at h3
    rw [h3]
    have hjoin : ("" : String) ++ String.join toks = String.join toks := by
      apply String.ext; simp
    simp [hjoin]
  have hstartB : sB = { sA with currentPromptId := JField.str b,
                                currentBuffer := "",
                                currentReasoningBuffer := "" } := by
    rw [hB, start_step sendOk sA b hb]
  have hne : JField.strictEq (JField.str a) sB.currentPromptId = false := by
    rw [hstartB]
    simp [JField.strictEq, hab]
  refine ⟨by rw [hstartA], by rw [hstartA], by rw [hstartB], by rw [hstartB],
          by rw [hstartB], ?_⟩
  intro tk
  constructor <;>
    simp [handleIncoming, tokenMsg, reasoningTokenMsg, emptyMsg, JField.truthy, ha, hne]

/-- C5 witness: start "A", tokens for "A", then start "B": "B" is active. -/
theorem start_supersedes_witness :
    ((handleIncoming true
        (processAll true readyState
          (startMsg (JField.str "A") ::
            (["x", "y"].map (fun tk => tokenMsg (JField.str "A") (JField.str tk)))))
        (startMsg (JField.str "B"))).1).currentPromptId = JField.str "B" := by
  exact (start_supersedes true readyState
    (processAll true readyState
      (startMsg (JField.str "A") ::
        (["x", "y"].map (fun tk => tokenMsg (JField.str "A") (JField.str tk)))))
    ((handleIncoming true
        (processAll true readyState
          (startMsg (JField.str "A") ::
            (["x", "y"].map (fun tk => tokenMsg (JField.str "A") (JField.str tk)))))
        (startMsg (JField.str "B"))).1)
    "A" "B" ["x", "y"] (by decide) (by decide) (by decide) rfl rfl).2.2.1

/-- C6 counterexample: the claim is false as stated.  Two successive
`version_ack{compatible:true}` messages in the same connection each trigger an
automatic `get_model` send - two sends in one negotiation, not at most one. -/
theorem repeated_ack_get_model_counterexample :
    countGetModel ((handleIncoming true negotiatingState compatAck).2)
      + countGetModel ((handleIncoming true
          (handleIncoming true negotiatingState compatAck).1 compatAck).2) = 2 := by
  decide

/-- C6 (amended): every received `version_ack` with a truthy `compatible`
field, while a peer is connected and the send succeeds, triggers exactly one
automatic `get_model` send and records the Compatible state; there is no
once-per-negotiation guard, so repeated compatible acks repeat the send. -/
theorem compat_ack_sends_get_model (s : ClientState) (m : RawMsg) (p : String)
    (ht : m.t = "version_ack") (hc : m.compatible.truthy = true)
    (hp : s.hasP2pcf = true) (hpeer : s.currentPeer = some p) :
    countGetModel ((handleIncoming true s m).2) = 1
    ∧ (handleIncoming true s m).1 =
        { s with isVersionNegotiated := true, isCompatible := true } := by
  constructor <;> simp [handleIncoming, countGetModel, ht, hc, hp, hpeer]

/-- C6 witness: the amended theorem applied to a concrete compatible ack. -/
theorem compat_ack_sends_get_model_witness :
    countGetModel ((handleIncoming true negotiatingState compatAck).2) = 1 := by
  exact (compat_ack_sends_get_model negotiatingState compatAck "peer1"
    rfl (by decide) rfl rfl).1

/-- C7 counterexample: the claim is false as stated.  An input parsing to the
non-finite value `Infinity` (for example the number-input text "1e400") passes
the `maxTokens && maxTokens > 0` test, so `max_tokens` is included in the
built request rather than omitted. -/
theorem max_tokens_infinity_counterexample :
    computeMaxTokens JSNumber.posInf = some JSNumber.posInf
    ∧ JSNumber.posInf.isFinite = false
    ∧ (sendPrompt readyState "sys" "hi" JSNumber.posInf "abc" true).2.head? =
        some (Effect.sendMsg (OutgoingMsg.prompt "test-abc"
          [⟨Role.system, "sys"⟩, ⟨Role.user, "hi"⟩] (some JSNumber.posInf))) := by
  refine ⟨by decide, by decide, ?_⟩
  rw [sendPrompt_success readyState "peer1" "sys" "hi" "abc" JSNumber.posInf
        rfl rfl rfl rfl (by rw [trim_hi]; decide)]
  rw [trim_sys, trim_hi]
  decide

/-- C7 (amended): the `max_tokens` field is included in the built request if
and only if the provided value satisfies the JavaScript comparison `> 0`:
`NaN`, zero and negative values (including `-Infinity`) are excluded, but
positive `Infinity` is included - no finiteness check is performed. -/
theorem max_tokens_included_iff_positive (n : JSNumber) :
    computeMaxTokens n = if n.gtZero then some n else none := by
  cases n with
  | nan => simp [computeMaxTokens, JSNumber.truthy, JSNumber.gtZero]
  | posInf => simp [computeMaxTokens, JSNumber.truthy, JSNumber.gtZero]
  | negInf => simp [computeMaxTokens, JSNumber.truthy, JSNumber.gtZero]
  | finite q =>
    rcases lt_trichotomy q 0 with hlt | heq | hgt
    · have h1 : q ≠ 0 := ne_of_lt hlt
      have h2 : ¬ (0 < q) := not_lt.mpr (le_of_lt hlt)
      simp [computeMaxTokens, JSNumber.truthy, JSNumber.gtZero, h1, h2]
    · simp [computeMaxTokens, JSNumber.truthy, JSNumber.gtZero, heq]
    · have h1 : q ≠ 0 := (ne_of_lt hgt).symm
      simp [computeMaxTokens, JSNumber.truthy, JSNumber.gtZero, h1, hgt]

/-- C8 counterexample: the claim is false as stated.  The empty string is a
string payload that fails to parse, so the claim requires the malformed
outcome; but `if (!asString)` treats the empty string as falsy, so the code
classifies it as unsupported-payload before ever parsing. -/
theorem decode_empty_text_counterexample :
    decode noParse (Payload.text "") = DecodeOutcome.unsupportedPayload
    ∧ DecodeOutcome.unsupportedPayload ≠ DecodeOutcome.malformed := by
  decide

/-- C8 (amended): decoding is total and classifies every payload: a non-text,
non-byte payload is unsupported-payload; a text (or UTF-8-decoded byte)
payload that is the empty string is also unsupported-payload (deviation from
the claim); non-empty text that fails to parse is malformed; a parsed value
that is falsy or lacks a string `t` is missing-discriminator; and a value with
a string `t` is accepted - in particular an unrecognized `t` dispatches to the
unknown-message path, which only logs and leaves the state unchanged. -/
theorem decode_classification (parse : String → Option JDoc) (p : Payload) :
    (p = Payload.other → decode parse p = DecodeOutcome.unsupportedPayload)
    ∧ (∀ s, payloadToText p = some s → s = "" →
        decode parse p = DecodeOutcome.unsupportedPayload)
    ∧ (∀ s, payloadToText p = some s → s ≠ "" → parse s = none →
        decode parse p = DecodeOutcome.malformed)
    ∧ (∀ s, payloadToText p = some s → s ≠ "" → parse s = some JDoc.falsy →
        decode parse p = DecodeOutcome.missingTag)
    ∧ (∀ s, payloadToText p = some s → s ≠ "" → parse s = some JDoc.noTag →
        decode parse p = DecodeOutcome.missingTag)
    ∧ (∀ s m, payloadToText p = some s → s ≠ "" → parse s = some (JDoc.tagged m) →
        decode parse p = DecodeOutcome.accepted m)
    ∧ (∀ (m : RawMsg) (st : ClientState) (sendOk : Bool), m.t ∉ knownTags →
        handleIncoming sendOk st m =
          (st, [Effect.logLine ("Ignoring unknown message type \"" ++ m.t ++ "\"")])) := by
  refine ⟨?_, ?_, ?_, ?_, ?_, ?_, ?_⟩
  · intro h; subst h; simp [decode, payloadToText]
  · intro s hs he; subst he; simp [decode, hs]
  · intro s hs hne hparse; simp [decode, hs, hne, hparse]
  · intro s hs hne hparse; simp [decode, hs, hne, hparse]
  · intro s hs hne hparse; simp [decode, hs, hne, hparse]
  · intro s m hs hne hparse; simp [decode, hs, hne, hparse]
  · intro m st sendOk hm
    simp only [knownTags, List.mem_cons, List.not_mem_nil, or_false, not_or] at hm
    obtain ⟨h1, h2, h3, h4, h5, h6, h7, h8⟩ := hm
    simp [handleIncoming, h1, h2, h3, h4, h5, h6, h7, h8]

/-- C8 witness: the classification applied to concrete non-empty unparsable
text yields the malformed outcome. -/
theorem decode_classification_witness :
    decode noParse (Payload.text "oops") = DecodeOutcome.malformed := by
  exact (decode_classification noParse (Payload.text "oops")).2.2.1 "oops"
    rfl (by decide) rfl

/-- C9 (confirmed): a prompt send that succeeds (connected, negotiated,
compatible, non-blank user message, transport send succeeds) leaves the active
correlation id equal to the just-sent prompt's id with both buffers empty, and
the prompt message carrying that id is what goes out; a `token` message
carrying that id is then appended to the visible buffer even though no `start`
for it has been received. -/
theorem prompt_send_activates_stream (s s' : ClientState)
    (p sys usr suff : String) (n : JSNumber)
    (hp : s.hasP2pcf = true) (hpeer : s.currentPeer = some p)
    (hneg : s.isVersionNegotiated = true) (hcomp : s.isCompatible = true)
    (husr : usr.trim ≠ "")
    (hout : s' = (sendPrompt s sys usr n suff true).1) :
    s'.currentPromptId = JField.str ("test-" ++ suff)
    ∧ s'.currentBuffer = "" ∧ s'.currentReasoningBuffer = ""
    ∧ (sendPrompt s sys usr n suff true).2.head? =
        some (Effect.sendMsg (OutgoingMsg.prompt ("test-" ++ suff)
          ((if sys.trim ≠ "" then [⟨Role.system, sys.trim⟩] else []) ++
            [⟨Role.user, usr.trim⟩]) (computeMaxTokens n)))
    ∧ (∀ tk : String,
        (handleIncoming true s'
          (tokenMsg (JField.str ("test-" ++ suff)) (JField.str tk))).1.currentBuffer = tk) := by
  have hs' : s' = { s with currentPromptId := JField.str ("test-" ++ suff),
                           currentBuffer := "", currentReasoningBuffer := "" } := by
    rw [hout]
    simp [sendPrompt, hp, hpeer, hneg, hcomp, husr]
  refine ⟨by rw [hs'], by rw [hs'], by rw [hs'], ?_, ?_⟩
  · simp [sendPrompt, hp, hpeer, hneg, hcomp, husr]
  · intro tk
    rw [token_append_step true s' ("test-" ++ suff) tk (test_id_ne_empty suff)
          (by rw [hs'])]
    simp [hs']

/-- C9 witness: a concrete successful prompt send activates id "test-abc". -/
theorem prompt_send_activates_stream_witness :
    ((sendPrompt readyState "" "hi" (JSNumber.finite 5) "abc" true).1).currentPromptId =
      JField.str ("test-" ++ "abc") := by
  exact (prompt_send_activates_stream readyState
    ((sendPrompt readyState "" "hi" (JSNumber.finite 5) "abc" true).1)
    "peer1" "" "hi" "abc" (JSNumber.finite 5)
    rfl rfl rfl rfl (by rw [trim_hi]; decide) rfl).1

/-- C10 (confirmed): a `token` or `reasoning_token` message whose id is truthy
and strictly equal to the active correlation id, but whose `tok` field is not
a string (absent, null, boolean or number), leaves the whole state unchanged
and produces no effect at all - no log, no status, nothing: it is silently
dropped. -/
theorem matched_token_without_string_silent (sendOk : Bool) (s : ClientState)
    (idf tokf : JField)
    (hid : idf.truthy = true) (hmatch : idf.strictEq s.currentPromptId = true)
    (htok : tokf.isString = false) :
    handleIncoming sendOk s (tokenMsg idf tokf) = (s, ([] : List Effect))
    ∧ handleIncoming sendOk s (reasoningTokenMsg idf tokf) = (s, ([] : List Effect)) := by
  cases tokf with
  | str t => simp [JField.isString] at htok
  | absent =>
    constructor <;>
      simp [handleIncoming, tokenMsg, reasoningTokenMsg, emptyMsg, hid, hmatch]
  | null =>
    constructor <;>
      simp [handleIncoming, tokenMsg, reasoningTokenMsg, emptyMsg, hid, hmatch]
  | bool b =>
    constructor <;>
      simp [handleIncoming, tokenMsg, reasoningTokenMsg, emptyMsg, hid, hmatch]
  | num n =>
    constructor <;>
      simp [handleIncoming, tokenMsg, reasoningTokenMsg, emptyMsg, hid, hmatch]

/-- C10 witness: a matching `token` with an absent `tok` is a silent no-op. -/
theorem matched_token_without_string_silent_witness :
    handleIncoming true activeX1State (tokenMsg (JField.str "x1") JField.absent) =
      (activeX1State, ([] : List Effect)) := by
  exact (matched_token_without_string_silent true activeX1State
    (JField.str "x1") JField.absent (by decide) (by decide) (by decide)).1
